import Mathlib

/-!
Verification of the TextAlchemy backend's model-resolution shim.

The repository contains two backend variants:
* the primary variant (`src/unnamed/part_000`): `tryModelGenerate`,
  `ensureWorkingModel`, `callGemini`, `listAvailableModels`, the
  `/api/humanize`, `/api/summarize`, `/api/tone` route handlers, and the
  process-wide `cachedModel`;
* the secondary variant (`src/backend/server.js`): `callGeminiAPI` and its
  own three route handlers.

The embedding is a shallow one:
* JavaScript/JSON values are modelled by `JVal` (JSON numbers are modelled
  as integers; no claim depends on fractional values).  `undefined` is
  modelled as `Option.none` wherever a JS expression may be undefined.
* The network is modelled as an oracle: a `Net` state carries a function
  from the index of the fetch call to its outcome, a call counter, and a
  trace of the requests issued so far.  A `FetchOutcome` packages what the
  JS code observes of one `fetch`: either a thrown transport error, or a
  response with its HTTP status, raw body text, and the result of
  `JSON.parse` on that body (`none` when parsing throws).  `JSON.parse`
  itself is a JS runtime primitive, not repository code, so its result is
  carried in the oracle rather than re-implemented.
* The mutable `cachedModel` variable is threaded explicitly as
  `Option String` state.
-/

/-- A JavaScript/JSON value.  Numbers are modelled as integers. -/
inductive JVal where
  | null : JVal
  | bool (b : Bool) : JVal
  | num (n : Int) : JVal
  | str (s : String) : JVal
  | arr (xs : List JVal) : JVal
  | obj (fields : List (String × JVal)) : JVal

/-- JS truthiness of a defined value: `null`, `false`, `0` and `""` are
falsy; arrays and objects are always truthy. -/
def truthy : JVal → Bool
  | .null => false
  | .bool b => b
  | .num n => n != 0
  | .str s => s != ""
  | .arr _ => true
  | .obj _ => true

/-- JS truthiness of a possibly-undefined value (`none` = `undefined`). -/
def truthyO : Option JVal → Bool
  | none => false
  | some v => truthy v

/-- Optional-chained property access `v?.k`: `undefined` on `undefined`,
`null`, and on values that have no such property. -/
def jget (v : Option JVal) (k : String) : Option JVal :=
  match v with
  | some (.obj fields) => fields.lookup k
  | _ => none

/-- Optional-chained index access `v?.[n]`.  On an object, JS converts the
index to a string key; on a string it yields the one-character string. -/
def jidx (v : Option JVal) (n : Nat) : Option JVal :=
  match v with
  | some (.arr xs) => xs.get? n
  | some (.obj fields) => fields.lookup (toString n)
  | some (.str s) => (s.toList.get? n).map (fun c => .str (String.singleton c))
  | _ => none

mutual

/-- JS `String(v)` coercion for the values this code stringifies. -/
def jsToString : JVal → String
  | .null => "null"
  | .bool b => if b then "true" else "false"
  | .num n => toString n
  | .str s => s
  | .arr xs => String.intercalate "," (jsToStringList xs)
  | .obj _ => "[object Object]"

/-- Array elements under JS `toString`: `null` elements become empty. -/
def jsToStringList : List JVal → List String
  | [] => []
  | .null :: vs => "" :: jsToStringList vs
  | v :: vs => jsToString v :: jsToStringList vs

end

/-- The JS expression `a || b || ... || null`: the first truthy operand,
`none` when every operand is falsy or undefined. -/
def firstTruthy : List (Option JVal) → Option JVal
  | [] => none
  | o :: rest => if truthyO o then o else firstTruthy rest

/-- `os.firstTruthy || dflt`: first truthy operand, else the default. -/
def firstTruthyD (os : List (Option JVal)) (dflt : JVal) : JVal :=
  match firstTruthy os with
  | some v => v
  | none => dflt

/-- What the JS code observes of one `fetch` call: a thrown transport
error (network failure or timeout), or a response with HTTP status, raw
body text, and the result of `JSON.parse` on the body (`none` when the
body is not valid JSON, so that `JSON.parse` throws). -/
inductive FetchOutcome where
  | exn (msg : String) : FetchOutcome
  | resp (status : Nat) (raw : String) (parsed : Option JVal) : FetchOutcome

/-- `res.ok`: the status is in the 200–299 range. -/
def statusOk (status : Nat) : Bool := 200 ≤ status && status < 300

/-- An outbound request, as recorded in the network trace. -/
inductive Request where
  | gen (model : String) (prompt : String) : Request
  | listModels (url : String) : Request

/-- The network state: an oracle giving the outcome of the n-th fetch
call of the process, the index of the next call, and the trace of
requests issued so far. -/
structure Net where
  oracle : Nat → FetchOutcome
  calls : Nat
  trace : List Request

/-- A fresh network state over a given oracle. -/
def initNet (oracle : Nat → FetchOutcome) : Net :=
  { oracle := oracle, calls := 0, trace := [] }

/-- Perform one fetch: consume the next oracle outcome and record the
request in the trace. -/
def doFetch (net : Net) (r : Request) : FetchOutcome × Net :=
  (net.oracle net.calls,
   { net with calls := net.calls + 1, trace := net.trace ++ [r] })

/-- The record returned by `tryModelGenerate` in the source:
`{ ok, text?, error?, raw?, data? }`. -/
structure AttemptResult where
  ok : Bool
  text : Option JVal := none
  error : Option JVal := none
  raw : Option String := none
  data : Option JVal := none

/-- `data?.candidates?.[0]?.content?.parts?.[0]?.text` (alt1, also alt3). -/
def alt1 (data : JVal) : Option JVal :=
  jget (jidx (jget (jget (jidx (jget (some data) "candidates") 0) "content") "parts") 0) "text"

/-- `data?.candidates?.[0]?.content?.[0]?.text` (alt2). -/
def alt2 (data : JVal) : Option JVal :=
  jget (jidx (jget (jidx (jget (some data) "candidates") 0) "content") 0) "text"

/-- `data?.candidates?.[0]?.text` (alt4). -/
def alt4 (data : JVal) : Option JVal :=
  jget (jidx (jget (some data) "candidates") 0) "text"

/-- `data?.output?.[0]?.content?.[0]?.text` (alt5). -/
def alt5 (data : JVal) : Option JVal :=
  jget (jidx (jget (jidx (jget (some data) "output") 0) "content") 0) "text"

/-- `data?.content?.[0]?.parts?.[0]?.text` (alt6). -/
def alt6 (data : JVal) : Option JVal :=
  jget (jidx (jget (jidx (jget (some data) "content") 0) "parts") 0) "text"

/-- `data?.candidates?.[0]?.message?.content?.parts?.[0]?.text` (alt7). -/
def alt7 (data : JVal) : Option JVal :=
  jget (jidx (jget (jget (jget (jidx (jget (some data) "candidates") 0) "message") "content") "parts") 0) "text"

/-- The ordered list of extraction shapes tried by `tryModelGenerate`
(part_000 lines 95–101); alt3 repeats alt1 exactly as in the source. -/
def altShapes (data : JVal) : List (Option JVal) :=
  [alt1 data, alt2 data, alt1 data, alt4 data, alt5 data, alt6 data, alt7 data]

/-- `const text = alt1 || alt2 || ... || alt7 || null` (part_000 line 103):
the first truthy extraction result, `none` when all fail. -/
def extractText (data : JVal) : Option JVal :=
  firstTruthy (altShapes data)

/-- The pure part of `tryModelGenerate` (part_000 lines 86–116): what the
function returns once the fetch outcome is known.  Transport exceptions
and JSON parse failures are returned as `ok := false` records, never
rethrown. -/
def parseAttempt : FetchOutcome → AttemptResult
  | .exn msg => { ok := false, error := some (.str msg) }
  | .resp status raw parsed =>
    match parsed with
    | none =>
      { ok := false, error := some (.str "Invalid JSON response"), raw := some raw }
    | some data =>
      let text := extractText data
      if statusOk status && truthyO text then
        { ok := true, text := text, raw := some raw, data := some data }
      else
        match jget (some data) "error" with
        | some e =>
          if truthy e then
            { ok := false, error := some e, raw := some raw, data := some data }
          else
            { ok := false, error := some (.str "No text found in response"),
              raw := some raw, data := some data }
        | none =>
          { ok := false, error := some (.str "No text found in response"),
            raw := some raw, data := some data }

/-- `tryModelGenerate(modelId, prompt)` (part_000 lines 65–117): issue one
generation request and interpret the outcome. -/
def tryModelGenerate (net : Net) (modelId prompt : String) : AttemptResult × Net :=
  let (outcome, net1) := doFetch net (.gen modelId prompt)
  (parseAttempt outcome, net1)

/-- The candidate model list of the primary variant (part_000 lines 22–28),
in priority order. -/
def CANDIDATE_MODELS : List String :=
  ["gemini-2.5-pro", "gemini-2.5-flash", "gemini-1.5-pro", "gemini-1.5-flash",
   "gemini-1.0"]

/-- The two model-listing endpoints tried by `listAvailableModels`
(part_000 lines 34–37), in order. -/
def listEndpoints : List String :=
  ["https://generativelanguage.googleapis.com/v1beta/models",
   "https://generativelanguage.googleapis.com/v1/models"]

/-- Whether one listing fetch outcome yields a usable models value: the
body parsed and `data?.models || data?.model` is truthy
(part_000 line 48). -/
def listUsable : FetchOutcome → Bool
  | .exn _ => false
  | .resp _ _ none => false
  | .resp _ _ (some data) =>
    truthyO (jget (some data) "models") || truthyO (jget (some data) "model")

/-- The value `listAvailableModels` returns from a usable outcome:
`data.models || data` (part_000 line 51). -/
def listValue : FetchOutcome → Option JVal
  | .exn _ => none
  | .resp _ _ none => none
  | .resp _ _ (some data) =>
    if truthyO (jget (some data) "models") then jget (some data) "models"
    else some data

/-- The loop of `listAvailableModels` over the endpoints: transport
errors and unparseable bodies are caught and the next endpoint is tried;
the first usable response is returned (part_000 lines 39–59). -/
def listLoop : List String → Net → Option JVal × Net
  | [], net => (none, net)
  | url :: rest, net =>
    let (outcome, net1) := doFetch net (.listModels url)
    if listUsable outcome then (listValue outcome, net1)
    else listLoop rest net1

/-- `listAvailableModels()` (part_000 lines 33–62): try v1beta then v1,
return the models value of the first usable response, else `null`. -/
def listAvailableModels (net : Net) : Option JVal × Net :=
  listLoop listEndpoints net

/-- The candidate loop of `ensureWorkingModel` (part_000 lines 124–133):
try each candidate in order, stop at the first `ok` attempt; a failed
attempt only advances the iteration. -/
def resolveLoop : List String → Net → String → Option String × Net
  | [], net, _ => (none, net)
  | m :: rest, net, prompt =>
    let (attempt, net1) := tryModelGenerate net m prompt
    if attempt.ok then (some m, net1)
    else resolveLoop rest net1 prompt

/-- ASCII lower-casing, as the `i` flag of an ASCII regex folds case. -/
def asciiLower (c : Char) : Char :=
  if 'A' ≤ c ∧ c ≤ 'Z' then Char.ofNat (c.toNat + 32) else c

/-- Whether the first list is a prefix of the second. -/
def listIsPrefixOf : List Char → List Char → Bool
  | [], _ => true
  | _ :: _, [] => false
  | a :: as, b :: bs => a == b && listIsPrefixOf as bs

/-- Whether `needle` occurs as a contiguous substring of the haystack. -/
def containsSub (needle : List Char) : List Char → Bool
  | [] => listIsPrefixOf needle []
  | c :: rest => listIsPrefixOf needle (c :: rest) || containsSub needle rest

/-- The regex test `/gemini/i.test(x)`: case-insensitive substring
search for "gemini" in the stringified value (part_000 line 138);
`test("")` on the `|| ""` default is false. -/
def geminiTest (o : Option JVal) : Bool :=
  match o with
  | some v => containsSub "gemini".toList ((jsToString v).toList.map asciiLower)
  | none => false

/-- The fields consulted to describe a listed model entry:
`m?.name || m?.model || m?.id` (part_000 lines 138 and 140). -/
def entryNameFields (m : JVal) : List (Option JVal) :=
  [jget (some m) "name", jget (some m) "model", jget (some m) "id"]

/-- `listed.find(m => /gemini/i.test(m?.name || m?.model || m?.id || "")) || listed[0]`
(part_000 line 138): the first gemini-like entry, else the first entry. -/
def selectListed (xs : List JVal) : Option JVal :=
  match xs.find? (fun m => geminiTest (firstTruthy (entryNameFields m))) with
  | some m => some m
  | none => xs.head?

/-- `geminiModel.name || geminiModel.model || geminiModel.id || geminiModel`,
stringified as the URL interpolation does (part_000 lines 140, 67). -/
def listedId (gm : JVal) : String :=
  jsToString (firstTruthyD (entryNameFields gm) gm)

/-- The diagnostic of the final `throw` of `ensureWorkingModel`
(part_000 line 151). -/
def noModelMsg : String :=
  "No usable Gemini model found for generateContent with this API key."

/-- The last-resort branch of `ensureWorkingModel` (part_000 lines
135–151): list models, pick an entry, attempt generation with it once,
else throw.  Returns (result, new cachedModel, net). -/
def lastResort (net : Net) (promptForTest : String) :
    Except String String × Option String × Net :=
  let (listed, net1) := listAvailableModels net
  match listed with
  | some (.arr xs) =>
    if xs.length > 0 then
      match selectListed xs with
      | some gm =>
        if truthy gm then
          let id := listedId gm
          let (attempt2, net2) := tryModelGenerate net1 id promptForTest
          if attempt2.ok then (.ok id, some id, net2)
          else (.error noModelMsg, none, net2)
        else (.error noModelMsg, none, net1)
      | none => (.error noModelMsg, none, net1)
    else (.error noModelMsg, none, net1)
  | _ => (.error noModelMsg, none, net1)

/-- `ensureWorkingModel(promptForTest)` (part_000 lines 120–152): return
the cached model if set; otherwise scan the candidate list, caching and
returning the first success; otherwise fall back to the model listing;
otherwise throw.  The `Except.error` case models the thrown `Error`.
Returns (result, new cachedModel, net). -/
def ensureWorkingModel (cachedModel : Option String) (net : Net)
    (promptForTest : String) : Except String String × Option String × Net :=
  match cachedModel with
  | some m => (.ok m, some m, net)
  | none =>
    match resolveLoop CANDIDATE_MODELS net promptForTest with
    | (some m, net1) => (.ok m, some m, net1)
    | (none, net1) => lastResort net1 promptForTest

/-- `throw new Error(result.error || "Gemini call failed")` (part_000
line 160): the message is the stringified error when truthy. -/
def callFailMsg (e : Option JVal) : String :=
  if truthyO e then jsToString ((e).getD .null) else "Gemini call failed"

/-- `callGemini(prompt)` (part_000 lines 155–161): resolve a working
model (passing the caller's prompt as the test prompt), then issue one
further generation request with the resolved model and the same prompt,
returning that request's text.  Returns (result, new cachedModel, net). -/
def callGemini (cachedModel : Option String) (net : Net) (prompt : String) :
    Except String JVal × Option String × Net :=
  match ensureWorkingModel cachedModel net prompt with
  | (.error e, cached1, net1) => (.error e, cached1, net1)
  | (.ok modelId, cached1, net1) =>
    let (result, net2) := tryModelGenerate net1 modelId prompt
    if result.ok then (.ok (result.text.getD .null), cached1, net2)
    else (.error (callFailMsg result.error), cached1, net2)

/-- An HTTP response sent by a route handler: status and JSON object body. -/
structure HttpResp where
  status : Nat
  body : List (String × JVal)

/-- `details: err.message || err` (part_000 line 175): the message when
truthy, else the serialized Error object. -/
def detailsVal (msg : String) : JVal :=
  if msg != "" then .str msg else .obj []

/-- The prompt template of `/api/humanize` (part_000 line 170). -/
def humanizePrompt (t : JVal) : String :=
  "Make this text sound natural and human-like:\n\n" ++ jsToString t

/-- The prompt template of `/api/summarize` (part_000 line 184). -/
def summarizePrompt (t : JVal) : String :=
  "Summarize this in 3-4 concise sentences:\n\n" ++ jsToString t

/-- JS strict equality `v === lit` against a string literal: true exactly
when `v` is that string. -/
def strictEqStr (v : JVal) (lit : String) : Bool :=
  match v with
  | .str s => s == lit
  | _ => false

/-- The tone chosen by `/api/tone`: `mode === "formal" ? "Formal" : "Casual"`
(part_000 line 198). -/
def toneWord (mode : JVal) : String :=
  if strictEqStr mode "formal" then "Formal" else "Casual"

/-- The prompt template of `/api/tone` (part_000 line 199). -/
def tonePrompt (mode t : JVal) : String :=
  "Rewrite the following text in a " ++ toneWord mode ++ " tone:\n\n" ++ jsToString t

/-- The POST `/api/humanize` handler of the primary variant (part_000
lines 165–177).  Returns (response, new cachedModel, net). -/
def handleHumanize (cachedModel : Option String) (net : Net) (reqBody : JVal) :
    HttpResp × Option String × Net :=
  let text := jget (some reqBody) "text"
  if !truthyO text then
    ({ status := 400, body := [("error", .str "Text required")] }, cachedModel, net)
  else
    let t := text.getD .null
    match callGemini cachedModel net (humanizePrompt t) with
    | (.ok output, cached1, net1) =>
      ({ status := 200, body := [("original", t), ("humanized", output)] },
       cached1, net1)
    | (.error msg, cached1, net1) =>
      ({ status := 500,
         body := [("error", .str "Gemini request failed"), ("details", detailsVal msg)] },
       cached1, net1)

/-- The POST `/api/summarize` handler of the primary variant (part_000
lines 179–191). -/
def handleSummarize (cachedModel : Option String) (net : Net) (reqBody : JVal) :
    HttpResp × Option String × Net :=
  let text := jget (some reqBody) "text"
  if !truthyO text then
    ({ status := 400, body := [("error", .str "Text required")] }, cachedModel, net)
  else
    let t := text.getD .null
    match callGemini cachedModel net (summarizePrompt t) with
    | (.ok output, cached1, net1) =>
      ({ status := 200, body := [("original", t), ("summary", output)] },
       cached1, net1)
    | (.error msg, cached1, net1) =>
      ({ status := 500,
         body := [("error", .str "Gemini request failed"), ("details", detailsVal msg)] },
       cached1, net1)

/-- The POST `/api/tone` handler of the primary variant (part_000 lines
193–206): 400 when `text` or `mode` is falsy, otherwise any mode other
than exactly "formal" is treated as casual. -/
def handleTone (cachedModel : Option String) (net : Net) (reqBody : JVal) :
    HttpResp × Option String × Net :=
  let text := jget (some reqBody) "text"
  let mode := jget (some reqBody) "mode"
  if !truthyO text || !truthyO mode then
    ({ status := 400, body := [("error", .str "Text and mode required")] },
     cachedModel, net)
  else
    let t := text.getD .null
    let m := mode.getD .null
    match callGemini cachedModel net (tonePrompt m t) with
    | (.ok output, cached1, net1) =>
      ({ status := 200, body := [("original", t), ("toned", output)] },
       cached1, net1)
    | (.error msg, cached1, net1) =>
      ({ status := 500,
         body := [("error", .str "Gemini request failed"), ("details", detailsVal msg)] },
       cached1, net1)

/-- The model list of the secondary variant (server.js lines 15–18). -/
def GEMINI_MODELS : List String :=
  ["gemini-pro:generateContent", "gemini-1.5-flash:generateContent"]

/-- `data?.candidates?.[0]?.content?.parts?.[0]?.text` as read by the
secondary variant (server.js line 40). -/
def extractV2 (data : JVal) : Option JVal :=
  jget (jidx (jget (jget (jidx (jget (some data) "candidates") 0) "content") "parts") 0) "text"

/-- One iteration of `callGeminiAPI`'s loop (server.js lines 25–46):
`none` means this model failed and the loop continues — on a thrown
fetch error, a non-ok status, a JSON parse failure (the `try` catches
it), or a falsy extracted result. -/
def v2Attempt : FetchOutcome → Option JVal
  | .exn _ => none
  | .resp status _ parsed =>
    if !statusOk status then none
    else
      match parsed with
      | none => none
      | some data =>
        let result := extractV2 data
        if truthyO result then result else none

/-- The loop of `callGeminiAPI` over `GEMINI_MODELS` (server.js lines
21–47). -/
def v2Loop : List String → Net → String → Option JVal × Net
  | [], net, _ => (none, net)
  | m :: rest, net, prompt =>
    let (outcome, net1) := doFetch net (.gen m prompt)
    match v2Attempt outcome with
    | some r => (some r, net1)
    | none => v2Loop rest net1 prompt

/-- The diagnostic of `callGeminiAPI`'s final `throw`
(server.js lines 49–51). -/
def v2FailMsg : String :=
  "All Gemini models failed or returned no result. Check your API key and internet connection."

/-- `callGeminiAPI(prompt)` (server.js lines 20–52): try each model in
order, return the first extracted text, else throw. -/
def callGeminiAPI (net : Net) (prompt : String) : Except String JVal × Net :=
  match v2Loop GEMINI_MODELS net prompt with
  | (some r, net1) => (.ok r, net1)
  | (none, net1) => (.error v2FailMsg, net1)

/-- The POST `/api/humanize` handler of the secondary variant
(server.js lines 56–69).  Its 500 body has only an `error` field. -/
def handleHumanizeV2 (net : Net) (reqBody : JVal) : HttpResp × Net :=
  let text := jget (some reqBody) "text"
  if !truthyO text then
    ({ status := 400, body := [("error", .str "Text is required")] }, net)
  else
    let t := text.getD .null
    match callGeminiAPI net ("Paraphrase this text to sound natural:\n" ++ jsToString t) with
    | (.ok r, net1) => ({ status := 200, body := [("result", r)] }, net1)
    | (.error _, net1) =>
      ({ status := 500, body := [("error", .str "Error contacting Gemini API")] }, net1)

/-- The POST `/api/summarize` handler of the secondary variant
(server.js lines 71–84). -/
def handleSummarizeV2 (net : Net) (reqBody : JVal) : HttpResp × Net :=
  let text := jget (some reqBody) "text"
  if !truthyO text then
    ({ status := 400, body := [("error", .str "Text is required")] }, net)
  else
    let t := text.getD .null
    match callGeminiAPI net ("Summarize this text in 3-4 concise sentences:\n" ++ jsToString t) with
    | (.ok r, net1) => ({ status := 200, body := [("result", r)] }, net1)
    | (.error _, net1) =>
      ({ status := 500, body := [("error", .str "Error contacting Gemini API")] }, net1)

/-- The tone chosen by the secondary `/api/tone`:
`mode === "formal" ? "formal" : "casual"` (server.js line 92). -/
def toneWordV2 (mode : JVal) : String :=
  if strictEqStr mode "formal" then "formal" else "casual"

/-- The POST `/api/tone` handler of the secondary variant
(server.js lines 86–101). -/
def handleToneV2 (net : Net) (reqBody : JVal) : HttpResp × Net :=
  let text := jget (some reqBody) "text"
  let mode := jget (some reqBody) "mode"
  if !truthyO text || !truthyO mode then
    ({ status := 400, body := [("error", .str "Text and mode required")] }, net)
  else
    let t := text.getD .null
    let m := mode.getD .null
    match callGeminiAPI net ("Rewrite this text in a " ++ toneWordV2 m ++ " tone:\n" ++ jsToString t) with
    | (.ok r, net1) => ({ status := 200, body := [("result", r)] }, net1)
    | (.error _, net1) =>
      ({ status := 500, body := [("error", .str "Error contacting Gemini API")] }, net1)

/-- Gen requests of a trace, as (model, prompt) pairs. -/
def genTrace (t : List Request) : List (String × String) :=
  t.filterMap (fun r => match r with
    | .gen m p => some (m, p)
    | .listModels _ => none)

/-- Whether a shape result is absent or a string (a "text field"). -/
def strShaped : Option JVal → Bool
  | none => true
  | some (.str _) => true
  | some _ => false

/-- Modelled from the spec: "accept the first shape that yields a
non-empty string" — the first entry holding a non-empty string value,
used to compare the source's extraction order against the spec's words. -/
def firstNonEmptyString : List (Option JVal) → Option JVal
  | [] => none
  | some (.str s) :: rest =>
    if s ≠ "" then some (.str s) else firstNonEmptyString rest
  | _ :: rest => firstNonEmptyString rest

/-! ### Concrete scenarios used to instantiate the theorems -/

/-- A well-formed provider body whose alt1 shape holds the given text. -/
def goodData (t : String) : JVal :=
  .obj [("candidates",
    .arr [.obj [("content", .obj [("parts", .arr [.obj [("text", .str t)]])])]])]

/-- A successful generation outcome carrying the given text. -/
def okOutcome (t : String) : FetchOutcome :=
  .resp 200 "raw" (some (goodData t))

/-- An oracle replaying a fixed list of outcomes, then transport errors. -/
def oracleOf (l : List FetchOutcome) : Nat → FetchOutcome :=
  fun n => (l.get? n).getD (.exn "no outcome")

/-- An oracle on which every fetch throws a transport error. -/
def downOracle : Nat → FetchOutcome := fun _ => .exn "network down"

/-- Scenario: the first candidate succeeds with text "A" during
resolution, and the follow-up request returns text "B". -/
def twoTextOracle : Nat → FetchOutcome :=
  oracleOf [okOutcome "A", okOutcome "B"]

/-- Scenario: the first candidate fails with HTTP 503, the second
succeeds with "Hi there", the follow-up request repeats "Hi there". -/
def scenarioOracle : Nat → FetchOutcome :=
  oracleOf [.resp 503 "unavailable" (some (.obj [])), okOutcome "Hi there",
            okOutcome "Hi there"]

/-- Scenario: the first candidate succeeds during resolution, but the
follow-up request with the same model and prompt throws. -/
def flakyOracle : Nat → FetchOutcome :=
  oracleOf [okOutcome "A", .exn "flaky"]

/-- A listing body with one gemini-like model entry. -/
def listedData : JVal :=
  .obj [("models", .arr [.obj [("name", .str "models/gemini-9")]])]

/-- Scenario: all five candidates throw, the v1beta listing returns one
gemini-like entry, and the attempt with it gets an unparseable 404. -/
def listFallbackOracle : Nat → FetchOutcome :=
  oracleOf [.exn "a", .exn "b", .exn "c", .exn "d", .exn "e",
            .resp 200 "list" (some listedData), .resp 404 "not found" none]

/-- Scenario: candidate 1 returns HTTP 200 whose body has no recognized
text shape, candidate 2 succeeds. -/
def noShapeOracle : Nat → FetchOutcome :=
  oracleOf [.resp 200 "odd" (some (.obj [("unexpected", .str "x")])),
            okOutcome "ok text", okOutcome "ok text"]

/-! ### Shared lemmas about the resolution loop -/

theorem resolveLoop_first_success (ms : List String) (net : Net) (p : String)
    (k : Nat) (hk : k < ms.length)
    (hfail : ∀ j, j < k → (parseAttempt (net.oracle (net.calls + j))).ok = false)
    (hsucc : (parseAttempt (net.oracle (net.calls + k))).ok = true) :
    resolveLoop ms net p =
      (some (ms.get ⟨k, hk⟩),
       { oracle := net.oracle, calls := net.calls + (k + 1),
         trace := net.trace ++ (ms.take (k + 1)).map (fun m => Request.gen m p) }) := by
  induction ms generalizing net k with
  | nil => simp at hk
  | cons m rest ih =>
    cases k with
    | zero =>
      simp only [Nat.add_zero] at hsucc
      simp [resolveLoop, tryModelGenerate, doFetch, hsucc]
    | succ k =>
      have h0 : (parseAttempt (net.oracle (net.calls + 0))).ok = false :=
        hfail 0 (Nat.succ_pos k)
      simp only [Nat.add_zero] at h0
      have hk2 : k < rest.length := Nat.lt_of_succ_lt_succ hk
      have step := ih { oracle := net.oracle, calls := net.calls + 1,
                        trace := net.trace ++ [Request.gen m p] } k hk2
        (by intro j hj
            simpa [Nat.add_assoc, Nat.add_comm 1 j] using hfail (j + 1) (Nat.succ_lt_succ hj))
        (by simpa [Nat.add_assoc, Nat.add_comm 1 k] using hsucc)
      simp only [resolveLoop, tryModelGenerate, doFetch, h0, Bool.false_eq_true,
        if_false] at step ⊢
      rw [step]
      simp [List.get, Nat.add_assoc, Nat.add_comm 1 (k + 1)]

theorem resolveLoop_all_fail (ms : List String) (net : Net) (p : String)
    (hfail : ∀ j, j < ms.length → (parseAttempt (net.oracle (net.calls + j))).ok = false) :
    resolveLoop ms net p =
      (none,
       { oracle := net.oracle, calls := net.calls + ms.length,
         trace := net.trace ++ ms.map (fun m => Request.gen m p) }) := by
  induction ms generalizing net with
  | nil => simp [resolveLoop]
  | cons m rest ih =>
    have h0 : (parseAttempt (net.oracle (net.calls + 0))).ok = false :=
      hfail 0 (Nat.succ_pos rest.length)
    simp only [Nat.add_zero] at h0
    have step := ih { oracle := net.oracle, calls := net.calls + 1,
                      trace := net.trace ++ [Request.gen m p] }
      (by intro j hj
          simpa [Nat.add_assoc, Nat.add_comm 1 j] using
            hfail (j + 1) (Nat.succ_lt_succ hj))
    simp only [resolveLoop, tryModelGenerate, doFetch, h0, Bool.false_eq_true,
      if_false]
    rw [step]
    simp [Nat.add_assoc, Nat.add_comm 1 rest.length]

theorem resolveLoop_trace_mono (ms : List String) (net : Net) (p : String)
    (r : Request) (hr : r ∈ net.trace) :
    r ∈ (resolveLoop ms net p).2.trace := by
  induction ms generalizing net with
  | nil => simpa [resolveLoop] using hr
  | cons m rest ih =>
    simp only [resolveLoop, tryModelGenerate, doFetch]
    by_cases h : (parseAttempt (net.oracle net.calls)).ok
    · simp only [h, if_true]
      exact List.mem_append_left _ hr
    · simp only [h, if_false]
      exact ih _ (List.mem_append_left _ hr)

theorem resolveLoop_head_mem (m : String) (ms : List String) (net : Net)
    (p : String) :
    Request.gen m p ∈ (resolveLoop (m :: ms) net p).2.trace := by
  simp only [resolveLoop, tryModelGenerate, doFetch]
  by_cases h : (parseAttempt (net.oracle net.calls)).ok
  · simp only [h, if_true]
    exact List.mem_append_right _ (List.mem_singleton.mpr rfl)
  · simp only [h, if_false]
    exact resolveLoop_trace_mono ms _ p _
      (List.mem_append_right _ (List.mem_singleton.mpr rfl))

theorem resolveLoop_advances (ms : List String) (net : Net) (p : String)
    (k : Nat) (hk : k + 1 < ms.length)
    (hfail : ∀ j, j ≤ k → (parseAttempt (net.oracle (net.calls + j))).ok = false) :
    Request.gen (ms.get ⟨k + 1, hk⟩) p ∈ (resolveLoop ms net p).2.trace := by
  induction ms generalizing net k with
  | nil => simp at hk
  | cons m rest ih =>
    have h0 : (parseAttempt (net.oracle (net.calls + 0))).ok = false :=
      hfail 0 (Nat.zero_le k)
    simp only [Nat.add_zero] at h0
    simp only [resolveLoop, tryModelGenerate, doFetch, h0, Bool.false_eq_true,
      if_false]
    cases k with
    | zero =>
      have hne : rest.length > 0 := Nat.lt_of_succ_lt_succ hk
      cases rest with
      | nil => simp at hne
      | cons r rest2 =>
        exact resolveLoop_head_mem r rest2 _ p
    | succ k =>
      have hk2 : k + 1 < rest.length := Nat.lt_of_succ_lt_succ hk
      have := ih { oracle := net.oracle, calls := net.calls + 1,
                   trace := net.trace ++ [Request.gen m p] } k hk2
        (by intro j hj
            simpa [Nat.add_assoc, Nat.add_comm 1 j] using
              hfail (j + 1) (Nat.succ_le_succ hj))
      simpa using this

theorem listLoop_all_unusable (urls : List String) (net : Net)
    (hbad : ∀ j, j < urls.length → listUsable (net.oracle (net.calls + j)) = false) :
    listLoop urls net =
      (none,
       { oracle := net.oracle, calls := net.calls + urls.length,
         trace := net.trace ++ urls.map (fun u => Request.listModels u) }) := by
  induction urls generalizing net with
  | nil => simp [listLoop]
  | cons url rest ih =>
    have h0 : listUsable (net.oracle (net.calls + 0)) = false :=
      hbad 0 (Nat.succ_pos rest.length)
    simp only [Nat.add_zero] at h0
    have step := ih { oracle := net.oracle, calls := net.calls + 1,
                      trace := net.trace ++ [Request.listModels url] }
      (by intro j hj
          simpa [Nat.add_assoc, Nat.add_comm 1 j] using
            hbad (j + 1) (Nat.succ_lt_succ hj))
    simp only [listLoop, doFetch, h0, Bool.false_eq_true, if_false]
    rw [step]
    simp [Nat.add_assoc, Nat.add_comm 1 rest.length]

theorem listLoop_first_usable (url : String) (rest : List String) (net : Net)
    (hgood : listUsable (net.oracle net.calls) = true) :
    listLoop (url :: rest) net =
      (listValue (net.oracle net.calls),
       { oracle := net.oracle, calls := net.calls + 1,
         trace := net.trace ++ [Request.listModels url] }) := by
  simp [listLoop, doFetch, hgood]

/-! ### Shared lemmas about caching and the issued requests -/

theorem callGemini_cached_cache (m : String) (net : Net) (p : String) :
    (callGemini (some m) net p).2.1 = some m := by
  simp only [callGemini, ensureWorkingModel, tryModelGenerate, doFetch]
  by_cases h : (parseAttempt (net.oracle net.calls)).ok <;> simp [h]

theorem callGemini_cached_trace (m : String) (net : Net) (p : String) :
    (callGemini (some m) net p).2.2.trace = net.trace ++ [Request.gen m p] := by
  simp only [callGemini, ensureWorkingModel, tryModelGenerate, doFetch]
  by_cases h : (parseAttempt (net.oracle net.calls)).ok <;> simp [h]

theorem resolveLoop_trace_shape (ms : List String) (net : Net) (p : String) :
    ∃ l, (resolveLoop ms net p).2.trace = net.trace ++ l ∧
      ∀ m q, Request.gen m q ∈ l → q = p := by
  induction ms generalizing net with
  | nil => exact ⟨[], by simp [resolveLoop], by simp⟩
  | cons m rest ih =>
    simp only [resolveLoop, tryModelGenerate, doFetch]
    by_cases h : (parseAttempt (net.oracle net.calls)).ok
    · refine ⟨[Request.gen m p], by simp [h], ?_⟩
      intro m2 q hq
      simp only [List.mem_singleton, Request.gen.injEq] at hq
      exact hq.2
    · obtain ⟨l, hl, hp⟩ := ih
        { oracle := net.oracle, calls := net.calls + 1,
          trace := net.trace ++ [Request.gen m p] }
      refine ⟨Request.gen m p :: l, ?_, ?_⟩
      · simp only [h, Bool.false_eq_true, if_false]
        rw [hl]
        simp
      · intro m2 q hq
        rcases List.mem_cons.mp hq with h1 | h2
        · cases h1; rfl
        · exact hp m2 q h2

theorem listLoop_trace_shape (urls : List String) (net : Net) :
    ∃ l, (listLoop urls net).2.trace = net.trace ++ l ∧
      ∀ m q, Request.gen m q ∉ l := by
  induction urls generalizing net with
  | nil => exact ⟨[], by simp [listLoop], by simp⟩
  | cons url rest ih =>
    simp only [listLoop, doFetch]
    by_cases h : listUsable (net.oracle net.calls)
    · exact ⟨[Request.listModels url], by simp [h], by simp⟩
    · obtain ⟨l, hl, hp⟩ := ih
        { oracle := net.oracle, calls := net.calls + 1,
          trace := net.trace ++ [Request.listModels url] }
      refine ⟨Request.listModels url :: l, ?_, ?_⟩
      · simp only [h, Bool.false_eq_true, if_false]
        rw [hl]
        simp
      · intro m q hq
        rcases List.mem_cons.mp hq with h1 | h2
        · cases h1
        · exact hp m q h2

theorem lastResort_trace_shape (net : Net) (p : String) :
    ∃ l, (lastResort net p).2.2.trace = net.trace ++ l ∧
      ∀ m q, Request.gen m q ∈ l → q = p := by
  obtain ⟨l1, hl1, hp1⟩ := listLoop_trace_shape listEndpoints net
  simp only [lastResort, listAvailableModels]
  rcases hlist : listLoop listEndpoints net with ⟨listed, net1⟩
  have hnet1 : net1.trace = net.trace ++ l1 := by rw [← hl1, hlist]
  cases listed with
  | none => exact ⟨l1, by simpa [hlist] using hnet1, fun m q hq => absurd hq (hp1 m q)⟩
  | some v =>
    cases v with
    | arr xs =>
      by_cases hlen : xs.length > 0
      · cases hsel : selectListed xs with
        | none => exact ⟨l1, by simp [hlen, hsel, hnet1], fun m q hq => absurd hq (hp1 m q)⟩
        | some gm =>
          by_cases hgm : truthy gm
          · simp only [hlen, if_true, hsel, hgm, tryModelGenerate, doFetch]
            by_cases hok : (parseAttempt (net1.oracle net1.calls)).ok
            · refine ⟨l1 ++ [Request.gen (listedId gm) p], by simp [hok, hnet1], ?_⟩
              intro m q hq
              rcases List.mem_append.mp hq with h1 | h2
              · exact absurd h1 (hp1 m q)
              · simp only [List.mem_singleton, Request.gen.injEq] at h2
                exact h2.2
            · refine ⟨l1 ++ [Request.gen (listedId gm) p], by simp [hok, hnet1], ?_⟩
              intro m q hq
              rcases List.mem_append.mp hq with h1 | h2
              · exact absurd h1 (hp1 m q)
              · simp only [List.mem_singleton, Request.gen.injEq] at h2
                exact h2.2
          · exact ⟨l1, by simp [hlen, hsel, hgm, hnet1], fun m q hq => absurd hq (hp1 m q)⟩
      · exact ⟨l1, by simp [hlen, hnet1], fun m q hq => absurd hq (hp1 m q)⟩
    | null => exact ⟨l1, by simp [hnet1], fun m q hq => absurd hq (hp1 m q)⟩
    | bool b => exact ⟨l1, by simp [hnet1], fun m q hq => absurd hq (hp1 m q)⟩
    | num n => exact ⟨l1, by simp [hnet1], fun m q hq => absurd hq (hp1 m q)⟩
    | str s => exact ⟨l1, by simp [hnet1], fun m q hq => absurd hq (hp1 m q)⟩
    | obj fs => exact ⟨l1, by simp [hnet1], fun m q hq => absurd hq (hp1 m q)⟩

theorem callGemini_trace_shape (cached : Option String) (net : Net) (p : String) :
    ∃ l, (callGemini cached net p).2.2.trace = net.trace ++ l ∧
      ∀ m q, Request.gen m q ∈ l → q = p := by
  cases cached with
  | some m =>
    refine ⟨[Request.gen m p], callGemini_cached_trace m net p, ?_⟩
    intro m2 q hq
    simp only [List.mem_singleton, Request.gen.injEq] at hq
    exact hq.2
  | none =>
    simp only [callGemini, ensureWorkingModel]
    obtain ⟨l1, hl1, hp1⟩ := resolveLoop_trace_shape CANDIDATE_MODELS net p
    rcases hres : resolveLoop CANDIDATE_MODELS net p with ⟨found, net1⟩
    have hnet1 : net1.trace = net.trace ++ l1 := by rw [← hl1, hres]
    cases found with
    | some m =>
      simp only [tryModelGenerate, doFetch]
      by_cases hok : (parseAttempt (net1.oracle net1.calls)).ok
      · refine ⟨l1 ++ [Request.gen m p], by simp [hok, hnet1], ?_⟩
        intro m2 q hq
        rcases List.mem_append.mp hq with h1 | h2
        · exact hp1 m2 q h1
        · simp only [List.mem_singleton, Request.gen.injEq] at h2
          exact h2.2
      · refine ⟨l1 ++ [Request.gen m p], by simp [hok, hnet1], ?_⟩
        intro m2 q hq
        rcases List.mem_append.mp hq with h1 | h2
        · exact hp1 m2 q h1
        · simp only [List.mem_singleton, Request.gen.injEq] at h2
          exact h2.2
    | none =>
      obtain ⟨l2, hl2, hp2⟩ := lastResort_trace_shape net1 p
      rcases hlr : lastResort net1 p with ⟨r, c2, net2⟩
      have hnet2 : net2.trace = net1.trace ++ l2 := by rw [← hl2, hlr]
      cases r with
      | error e =>
        refine ⟨l1 ++ l2, by simp [hlr, hnet2, hnet1], ?_⟩
        intro m q hq
        rcases List.mem_append.mp hq with h1 | h2
        · exact hp1 m q h1
        · exact hp2 m q h2
      | ok mid =>
        simp only [tryModelGenerate, doFetch]
        by_cases hok : (parseAttempt (net2.oracle net2.calls)).ok
        · refine ⟨l1 ++ l2 ++ [Request.gen mid p], by simp [hlr, hok, hnet2, hnet1], ?_⟩
          intro m q hq
          rcases List.mem_append.mp hq with h12 | h3
          · rcases List.mem_append.mp h12 with h1 | h2
            · exact hp1 m q h1
            · exact hp2 m q h2
          · simp only [List.mem_singleton, Request.gen.injEq] at h3
            exact h3.2
        · refine ⟨l1 ++ l2 ++ [Request.gen mid p], by simp [hlr, hok, hnet2, hnet1], ?_⟩
          intro m q hq
          rcases List.mem_append.mp hq with h12 | h3
          · rcases List.mem_append.mp h12 with h1 | h2
            · exact hp1 m q h1
            · exact hp2 m q h2
          · simp only [List.mem_singleton, Request.gen.injEq] at h3
            exact h3.2

/-! ### Claim theorems -/

theorem parseAttempt_fail_error_isSome (outcome : FetchOutcome)
    (h : (parseAttempt outcome).ok = false) :
    (parseAttempt outcome).error.isSome := by
  cases outcome with
  | exn msg => simp [parseAttempt]
  | resp status raw parsed =>
    cases parsed with
    | none => simp [parseAttempt]
    | some data =>
      simp only [parseAttempt]
      by_cases hc : (statusOk status && truthyO (extractText data)) = true
      · exact absurd h (by simp [parseAttempt, hc])
      · simp only [Bool.not_eq_true] at hc
        simp only [hc, Bool.false_eq_true, if_false]
        split
        · split <;> simp
        · simp

/-- C10: `tryModelGenerate` is total (a plain Lean function over every
fetch outcome): its result is always the `parseAttempt` record of the
outcome consumed, a thrown transport exception becomes an
`{ok := false, error := message}` value, a JSON parse failure becomes
`{ok := false, error := "Invalid JSON response"}`, and every failing
result carries an error value instead of propagating an exception. -/
theorem tryModelGenerate_total :
    (∀ net m p, (tryModelGenerate net m p).1 = parseAttempt (net.oracle net.calls)) ∧
    (∀ msg, parseAttempt (.exn msg) =
      { ok := false, text := none, error := some (.str msg), raw := none, data := none }) ∧
    (∀ status raw, parseAttempt (.resp status raw none) =
      { ok := false, text := none, error := some (.str "Invalid JSON response"),
        raw := some raw, data := none }) ∧
    (∀ outcome, (parseAttempt outcome).ok = false → (parseAttempt outcome).error.isSome) :=
  ⟨fun _ _ _ => rfl, fun _ => rfl, fun _ _ => rfl,
    parseAttempt_fail_error_isSome⟩

/-- C10 witness: a transport exception is returned as a failing record
carrying an error value. -/
theorem tryModelGenerate_total_witness :
    ((parseAttempt (FetchOutcome.exn "boom")).error).isSome :=
  tryModelGenerate_total.2.2.2 (FetchOutcome.exn "boom") rfl

/-- C2: the Resolved Model cache is write-once: with a cached model,
`ensureWorkingModel` returns it unchanged without touching the network,
`callGemini` keeps the same cache and issues exactly the one generation
request with the cached identifier (no candidate-list search), and none
of the three route handlers ever clears or reassigns a set cache. -/
theorem cachedModel_write_once (m : String) (net : Net) (p : String) (b : JVal) :
    ensureWorkingModel (some m) net p = (.ok m, some m, net) ∧
    (callGemini (some m) net p).2.1 = some m ∧
    (callGemini (some m) net p).2.2.trace = net.trace ++ [Request.gen m p] ∧
    (handleHumanize (some m) net b).2.1 = some m ∧
    (handleSummarize (some m) net b).2.1 = some m ∧
    (handleTone (some m) net b).2.1 = some m := by
  refine ⟨rfl, callGemini_cached_cache m net p, callGemini_cached_trace m net p,
    ?_, ?_, ?_⟩
  · simp only [handleHumanize]
    by_cases ht : truthyO (jget (some b) "text")
    · simp only [ht, Bool.not_true, Bool.false_eq_true, if_false]
      rcases hcg : callGemini (some m) net
          (humanizePrompt ((jget (some b) "text").getD .null)) with ⟨res, c1, n1⟩
      have hc1 : c1 = some m := by
        have h2 := callGemini_cached_cache m net
          (humanizePrompt ((jget (some b) "text").getD .null))
        rw [hcg] at h2
        exact h2
      cases res <;> simp [hcg, hc1]
    · simp [ht]
  · simp only [handleSummarize]
    by_cases ht : truthyO (jget (some b) "text")
    · simp only [ht, Bool.not_true, Bool.false_eq_true, if_false]
      rcases hcg : callGemini (some m) net
          (summarizePrompt ((jget (some b) "text").getD .null)) with ⟨res, c1, n1⟩
      have hc1 : c1 = some m := by
        have h2 := callGemini_cached_cache m net
          (summarizePrompt ((jget (some b) "text").getD .null))
        rw [hcg] at h2
        exact h2
      cases res <;> simp [hcg, hc1]
    · simp [ht]
  · simp only [handleTone]
    by_cases ht : (!truthyO (jget (some b) "text") || !truthyO (jget (some b) "mode")) = true
    · simp [ht]
    · simp only [ht, Bool.false_eq_true, if_false]
      rcases hcg : callGemini (some m) net
          (tonePrompt ((jget (some b) "mode").getD .null)
            ((jget (some b) "text").getD .null)) with ⟨res, c1, n1⟩
      have hc1 : c1 = some m := by
        have h2 := callGemini_cached_cache m net
          (tonePrompt ((jget (some b) "mode").getD .null)
            ((jget (some b) "text").getD .null))
        rw [hcg] at h2
        exact h2
      cases res <;> simp [hcg, hc1]

/-- C9: the tone routes never reject an unrecognized mode: with truthy
`text` and truthy `mode`, any mode other than exactly "formal" yields the
same response as mode "casual" (both variants), the request is processed
(status is not 400), and a 400 arises only from a falsy `text` or `mode`. -/
theorem tone_mode_lenient (cached : Option String) (net : Net) (t mv : JVal)
    (ht : truthy t = true) (hm : truthy mv = true)
    (hne : strictEqStr mv "formal" = false) :
    handleTone cached net (.obj [("text", t), ("mode", mv)]) =
      handleTone cached net (.obj [("text", t), ("mode", .str "casual")]) ∧
    (handleTone cached net (.obj [("text", t), ("mode", mv)])).1.status ≠ 400 ∧
    (∀ b, (handleTone cached net b).1.status = 400 →
      truthyO (jget (some b) "text") = false ∨
      truthyO (jget (some b) "mode") = false) ∧
    handleToneV2 net (.obj [("text", t), ("mode", mv)]) =
      handleToneV2 net (.obj [("text", t), ("mode", .str "casual")]) ∧
    (handleToneV2 net (.obj [("text", t), ("mode", mv)])).1.status ≠ 400 := by
  have hlookup : jget (some (JVal.obj [("text", t), ("mode", mv)])) "text" = some t := rfl
  have hlookm : jget (some (JVal.obj [("text", t), ("mode", mv)])) "mode" = some mv := rfl
  have hword : toneWord mv = "Casual" := by
    simp [toneWord, hne]
  have hword2 : toneWordV2 mv = "casual" := by
    simp [toneWordV2, hne]
  have hcas : truthy (JVal.str "casual") = true := rfl
  have hcasw : toneWord (JVal.str "casual") = "Casual" := rfl
  have hcasw2 : toneWordV2 (JVal.str "casual") = "casual" := rfl
  refine ⟨?_, ?_, ?_, ?_, ?_⟩
  · simp [handleTone, jget, List.lookup, truthyO, ht, hm, tonePrompt, hword,
      hcasw, hcas]
  · simp only [handleTone, hlookup, hlookm, truthyO, ht, hm, Bool.not_true,
      Bool.or_self, Bool.false_eq_true, if_false]
    rcases hcg : callGemini cached net (tonePrompt mv t) with ⟨res, c1, n1⟩
    cases res <;> simp [hcg]
  · intro b hb
    by_cases hbt : truthyO (jget (some b) "text")
    · by_cases hbm : truthyO (jget (some b) "mode")
      · exfalso
        simp only [handleTone, hbt, hbm, Bool.not_true, Bool.or_self,
          Bool.false_eq_true, if_false] at hb
        rcases hcg : callGemini cached net
            (tonePrompt ((jget (some b) "mode").getD .null)
              ((jget (some b) "text").getD .null)) with ⟨res, c1, n1⟩
        rw [hcg] at hb
        cases res <;> simp at hb
      · exact Or.inr (by simpa using hbm)
    · exact Or.inl (by simpa using hbt)
  · simp [handleToneV2, jget, List.lookup, truthyO, ht, hm, hword2, hcasw2,
      hcas]
  · simp only [handleToneV2, hlookup, hlookm, truthyO, ht, hm, Bool.not_true,
      Bool.or_self, Bool.false_eq_true, if_false]
    rcases hcg : callGeminiAPI net
        ("Rewrite this text in a " ++ toneWordV2 mv ++ " tone:\n" ++ jsToString t)
      with ⟨res, n1⟩
    cases res <;> simp [hcg]

/-- C9 witness: mode "angry" is processed like mode "casual" and is not
rejected with 400. -/
theorem tone_mode_lenient_witness :
    handleTone none (initNet downOracle)
        (.obj [("text", .str "ok"), ("mode", .str "angry")]) =
      handleTone none (initNet downOracle)
        (.obj [("text", .str "ok"), ("mode", .str "casual")]) ∧
    (handleTone none (initNet downOracle)
        (.obj [("text", .str "ok"), ("mode", .str "angry")])).1.status ≠ 400 := by
  have h := tone_mode_lenient none (initNet downOracle) (.str "ok") (.str "angry")
    (by decide) (by decide) (by decide)
  exact ⟨h.1, h.2.1⟩

theorem append_ne_empty (a b : String) (ha : 0 < a.length) : a ++ b ≠ "" := by
  intro h
  have h2 := congrArg String.length h
  rw [String.length_append] at h2
  simp at h2
  omega

/-- C7: request validation happens before the resolver is consulted: a
falsy `text` makes `/api/humanize` and `/api/summarize` answer 400 with
the cache and the network untouched (both variants), a falsy `text` or
`mode` does the same for `/api/tone`, and every generation request a
handler adds to the trace carries the handler's instruction-template
prompt, which is never the empty string. -/
theorem validation_rejects_missing_fields (cached : Option String) (net : Net)
    (b : JVal) :
    (truthyO (jget (some b) "text") = false →
      handleHumanize cached net b =
        ({ status := 400, body := [("error", .str "Text required")] }, cached, net) ∧
      handleSummarize cached net b =
        ({ status := 400, body := [("error", .str "Text required")] }, cached, net) ∧
      handleHumanizeV2 net b =
        ({ status := 400, body := [("error", .str "Text is required")] }, net) ∧
      handleSummarizeV2 net b =
        ({ status := 400, body := [("error", .str "Text is required")] }, net)) ∧
    (truthyO (jget (some b) "text") = false ∨ truthyO (jget (some b) "mode") = false →
      handleTone cached net b =
        ({ status := 400, body := [("error", .str "Text and mode required")] },
         cached, net) ∧
      handleToneV2 net b =
        ({ status := 400, body := [("error", .str "Text and mode required")] }, net)) ∧
    (∀ t : JVal, humanizePrompt t ≠ "" ∧ summarizePrompt t ≠ "" ∧
      ∀ mv : JVal, tonePrompt mv t ≠ "") ∧
    (∀ m q, Request.gen m q ∈ (handleHumanize cached net b).2.2.trace →
      Request.gen m q ∈ net.trace ∨
      q = humanizePrompt ((jget (some b) "text").getD .null)) := by
  refine ⟨?_, ?_, ?_, ?_⟩
  · intro h
    exact ⟨by simp [handleHumanize, h], by simp [handleSummarize, h],
      by simp [handleHumanizeV2, h], by simp [handleSummarizeV2, h]⟩
  · intro h
    rcases h with h | h
    · exact ⟨by simp [handleTone, h], by simp [handleToneV2, h]⟩
    · exact ⟨by simp [handleTone, h], by simp [handleToneV2, h]⟩
  · intro t
    refine ⟨append_ne_empty _ _ (by decide), append_ne_empty _ _ (by decide), ?_⟩
    intro mv
    apply append_ne_empty
    rw [String.length_append, String.length_append]
    have hl : 0 < ("Rewrite the following text in a " : String).length := by decide
    omega
  · intro m q hq
    by_cases ht : truthyO (jget (some b) "text")
    · obtain ⟨l, hl, hp⟩ := callGemini_trace_shape cached net
        (humanizePrompt ((jget (some b) "text").getD .null))
      rcases hcg : callGemini cached net
          (humanizePrompt ((jget (some b) "text").getD .null)) with ⟨res, c1, n1⟩
      have hn1 : n1.trace = net.trace ++ l := by rw [← hl, hcg]
      have htr : (handleHumanize cached net b).2.2.trace = n1.trace := by
        simp only [handleHumanize, ht, Bool.not_true, Bool.false_eq_true, if_false,
          hcg]
        cases res <;> rfl
      rw [htr, hn1] at hq
      rcases List.mem_append.mp hq with h1 | h2
      · exact Or.inl h1
      · exact Or.inr (hp m q h2)
    · simp only [Bool.not_eq_true] at ht
      simp only [handleHumanize, ht, Bool.not_false, if_true] at hq
      exact Or.inl hq

/-- C7 witness: a humanize request with no usable `text` is answered 400
without touching the network, and the tone prompt template is non-empty. -/
theorem validation_rejects_missing_fields_witness :
    handleHumanize none (initNet downOracle) (.obj []) =
      ({ status := 400, body := [("error", .str "Text required")] }, none,
       initNet downOracle) ∧
    tonePrompt (.str "angry") (.str "ok") ≠ "" := by
  have h := validation_rejects_missing_fields none (initNet downOracle) (.obj [])
  exact ⟨(h.1 (by decide)).1, (h.2.2.1 (.str "ok")).2.2 (.str "angry")⟩

/-- C4: one candidate's failure — transport exception, bad status,
unparseable body, or no recognized text — is recorded as an error value
and never aborts resolution: with the first k+1 candidates failing, the
primary resolver still issues a request for candidate k+2, and in the
secondary variant a failed first model still leads to a request for the
second model. -/
theorem candidate_failure_nonfatal (oracle : Nat → FetchOutcome) (p : String)
    (k : Nat) (hk : k + 1 < CANDIDATE_MODELS.length)
    (hfail : ∀ j, j ≤ k → (parseAttempt (oracle j)).ok = false) :
    (∀ outcome, (parseAttempt outcome).ok = false →
      (parseAttempt outcome).error.isSome) ∧
    Request.gen (CANDIDATE_MODELS.get ⟨k + 1, hk⟩) p ∈
      (ensureWorkingModel none (initNet oracle) p).2.2.trace ∧
    (v2Attempt (oracle 0) = none →
      Request.gen "gemini-1.5-flash:generateContent" p ∈
        (callGeminiAPI (initNet oracle) p).2.trace) := by
  refine ⟨parseAttempt_fail_error_isSome, ?_, ?_⟩
  · have hadv := resolveLoop_advances CANDIDATE_MODELS (initNet oracle) p k hk
      (by intro j hj
          simpa [initNet] using hfail j hj)
    rcases hres : resolveLoop CANDIDATE_MODELS (initNet oracle) p with ⟨found, net1⟩
    rw [hres] at hadv
    cases found with
    | some m =>
      simp only [ensureWorkingModel, hres]
      exact hadv
    | none =>
      simp only [ensureWorkingModel, hres]
      obtain ⟨l, hl, hp⟩ := lastResort_trace_shape net1 p
      rw [hl]
      exact List.mem_append_left _ hadv
  · intro hv2
    cases hA : v2Attempt (oracle 1) with
    | some r =>
      simp [callGeminiAPI, v2Loop, GEMINI_MODELS, doFetch, initNet, hv2, hA]
    | none =>
      simp [callGeminiAPI, v2Loop, GEMINI_MODELS, doFetch, initNet, hv2, hA]

/-- C4 witness: with every attempt failing, the resolver still reaches
the second candidate, and the secondary variant reaches its second
model. -/
theorem candidate_failure_nonfatal_witness :
    Request.gen "gemini-2.5-flash" "x" ∈
      (ensureWorkingModel none (initNet downOracle) "x").2.2.trace ∧
    Request.gen "gemini-1.5-flash:generateContent" "x" ∈
      (callGeminiAPI (initNet downOracle) "x").2.trace := by
  have h := candidate_failure_nonfatal downOracle "x" 0 (by decide)
    (fun j hj => rfl)
  exact ⟨h.2.1, h.2.2 rfl⟩

theorem firstTruthy_eq_firstNonEmptyString (l : List (Option JVal))
    (hl : ∀ o ∈ l, strShaped o = true) :
    firstTruthy l = firstNonEmptyString l := by
  induction l with
  | nil => rfl
  | cons o rest ih =>
    have ho : strShaped o = true := hl o (List.mem_cons_self o rest)
    have hrest : ∀ o2 ∈ rest, strShaped o2 = true :=
      fun o2 h2 => hl o2 (List.mem_cons_of_mem o h2)
    cases o with
    | none => simpa [firstTruthy, firstNonEmptyString, truthyO] using ih hrest
    | some v =>
      cases v with
      | str s =>
        by_cases hs : s = ""
        · subst hs
          simpa [firstTruthy, firstNonEmptyString, truthyO, truthy] using ih hrest
        · simp [firstTruthy, firstNonEmptyString, truthyO, truthy, hs]
      | null => simp [strShaped] at ho
      | bool b2 => simp [strShaped] at ho
      | num n => simp [strShaped] at ho
      | arr xs => simp [strShaped] at ho
      | obj fs => simp [strShaped] at ho

theorem parseAttempt_no_text_fails (st : Nat) (raw : String) (data : JVal)
    (hnone : extractText data = none) :
    (parseAttempt (.resp st raw (some data))).ok = false := by
  simp only [parseAttempt, hnone, truthyO, Bool.and_false, Bool.false_eq_true,
    if_false]
  split
  · split <;> rfl
  · rfl

/-- C5: text extraction checks the fixed ordered shape list and, when
every shape yields a text field (absent or a string), returns exactly the
first non-empty string among them; an HTTP-success response in which no
shape yields text makes that candidate fail and resolution proceed to
the next candidate. -/
theorem extraction_shape_order (data : JVal)
    (hshapes : ∀ o ∈ altShapes data, strShaped o = true)
    (oracle : Nat → FetchOutcome) (p : String) (k : Nat)
    (hk : k + 1 < CANDIDATE_MODELS.length)
    (hfail : ∀ j, j < k → (parseAttempt (oracle j)).ok = false)
    (st : Nat) (raw : String) (d2 : JVal)
    (hout : oracle k = .resp st raw (some d2))
    (_hstat : statusOk st = true) (hnone : extractText d2 = none) :
    extractText data = firstNonEmptyString (altShapes data) ∧
    (parseAttempt (oracle k)).ok = false ∧
    Request.gen (CANDIDATE_MODELS.get ⟨k + 1, hk⟩) p ∈
      (ensureWorkingModel none (initNet oracle) p).2.2.trace := by
  have hkfail : (parseAttempt (oracle k)).ok = false := by
    rw [hout]
    exact parseAttempt_no_text_fails st raw d2 hnone
  refine ⟨firstTruthy_eq_firstNonEmptyString _ hshapes, hkfail, ?_⟩
  have hadv := resolveLoop_advances CANDIDATE_MODELS (initNet oracle) p k hk
    (by intro j hj
        rcases Nat.lt_or_ge j k with hlt | hge
        · simpa [initNet] using hfail j hlt
        · have : j = k := Nat.le_antisymm hj hge
          subst this
          simpa [initNet] using hkfail)
  rcases hres : resolveLoop CANDIDATE_MODELS (initNet oracle) p with ⟨found, net1⟩
  rw [hres] at hadv
  cases found with
  | some m =>
    simp only [ensureWorkingModel, hres]
    exact hadv
  | none =>
    simp only [ensureWorkingModel, hres]
    obtain ⟨l, hl, hp⟩ := lastResort_trace_shape net1 p
    rw [hl]
    exact List.mem_append_left _ hadv

/-- C5 witness: on a well-formed body the first shape's non-empty string
is extracted, and a 200 response with no recognized shape fails the
candidate while the next candidate is still attempted. -/
theorem extraction_shape_order_witness :
    extractText (goodData "hi") = firstNonEmptyString (altShapes (goodData "hi")) ∧
    (parseAttempt (noShapeOracle 0)).ok = false ∧
    Request.gen "gemini-2.5-flash" "x" ∈
      (ensureWorkingModel none (initNet noShapeOracle) "x").2.2.trace := by
  have h := extraction_shape_order (goodData "hi") (by decide) noShapeOracle "x" 0
    (by decide) (fun j hj => absurd hj (Nat.not_lt_zero j)) 200 "odd"
    (.obj [("unexpected", .str "x")]) rfl rfl rfl
  exact h

theorem callGemini_resolution (oracle : Nat → FetchOutcome) (p : String) (k : Nat)
    (hk : k < CANDIDATE_MODELS.length)
    (hfail : ∀ j, j < k → (parseAttempt (oracle j)).ok = false)
    (hsucc : (parseAttempt (oracle k)).ok = true) :
    callGemini none (initNet oracle) p =
      ((if (parseAttempt (oracle (k + 1))).ok then
          Except.ok ((parseAttempt (oracle (k + 1))).text.getD .null)
        else Except.error (callFailMsg (parseAttempt (oracle (k + 1))).error)),
       some (CANDIDATE_MODELS.get ⟨k, hk⟩),
       { oracle := oracle, calls := k + 2,
         trace := (CANDIDATE_MODELS.take (k + 1)).map (fun m => Request.gen m p)
           ++ [Request.gen (CANDIDATE_MODELS.get ⟨k, hk⟩) p] }) := by
  have hres := resolveLoop_first_success CANDIDATE_MODELS (initNet oracle) p k hk
    (by intro j hj
        simpa [initNet] using hfail j hj)
    (by simpa [initNet] using hsucc)
  simp only [initNet, Nat.zero_add, List.nil_append] at hres
  simp only [callGemini, ensureWorkingModel, initNet, hres, tryModelGenerate,
    doFetch]
  by_cases h2 : (parseAttempt (oracle (k + 1))).ok
  · simp [h2]
  · simp [h2]

/-- C1 counterexample: with the first candidate succeeding during
resolution with extracted text "A" and the follow-up request returning
"B", `callGemini` returns "B", not the text extracted from the first
successful attempt — the claim's "returns exactly the text extracted
from that first successful attempt" is false at this input. -/
theorem callGemini_not_resolution_text_cex :
    (parseAttempt (twoTextOracle 0)).ok = true ∧
    (parseAttempt (twoTextOracle 0)).text = some (.str "A") ∧
    (callGemini none (initNet twoTextOracle) "Hello").1 = .ok (.str "B") ∧
    (callGemini none (initNet twoTextOracle) "Hello").1 ≠ .ok (.str "A") := by
  refine ⟨rfl, rfl, rfl, ?_⟩
  intro h
  rw [show (callGemini none (initNet twoTextOracle) "Hello").1
      = Except.ok (JVal.str "B") from rfl] at h
  simp at h

/-- C1 (amended): for every prompt, when the first k attempts fail and
attempt k+1 succeeds with extractable text, `callGemini` records that
candidate as the Resolved Model and issues no attempt against any later
candidate; the returned value is the text of the follow-up request to
that same candidate (which coincides with the resolution text whenever
the provider answers identical requests identically). -/
theorem first_success_resolution (oracle : Nat → FetchOutcome) (p : String)
    (k : Nat) (hk : k < CANDIDATE_MODELS.length)
    (hfail : ∀ j, j < k → (parseAttempt (oracle j)).ok = false)
    (hsucc : (parseAttempt (oracle k)).ok = true)
    (hsucc2 : (parseAttempt (oracle (k + 1))).ok = true) :
    (callGemini none (initNet oracle) p).1 =
      .ok ((parseAttempt (oracle (k + 1))).text.getD .null) ∧
    (callGemini none (initNet oracle) p).2.1 =
      some (CANDIDATE_MODELS.get ⟨k, hk⟩) ∧
    (callGemini none (initNet oracle) p).2.2.trace =
      (CANDIDATE_MODELS.take (k + 1)).map (fun m => Request.gen m p)
        ++ [Request.gen (CANDIDATE_MODELS.get ⟨k, hk⟩) p] ∧
    ∀ j (hj : j < CANDIDATE_MODELS.length), k < j →
      Request.gen (CANDIDATE_MODELS.get ⟨j, hj⟩) p ∉
        (callGemini none (initNet oracle) p).2.2.trace := by
  have hcg := callGemini_resolution oracle p k hk hfail hsucc
  rw [hcg]
  refine ⟨by simp [hsucc2], rfl, rfl, ?_⟩
  intro j hj hkj hmem
  have hnd : CANDIDATE_MODELS.Nodup := by decide
  simp only [List.mem_append, List.mem_map, List.mem_singleton,
    Request.gen.injEq, List.get_eq_getElem] at hmem
  rcases hmem with ⟨m, hmtake, hgen, _⟩ | ⟨hgen, _⟩
  · rw [List.mem_take_iff_getElem] at hmtake
    obtain ⟨i, hilt, hmi⟩ := hmtake
    have hieq : i = j := by
      have hi2 : i < CANDIDATE_MODELS.length := lt_of_lt_of_le hilt
        (by simp [Nat.min_le_right])
      exact (hnd.getElem_inj_iff).mp (by rw [hmi, hgen])
    omega
  · have : j = k := (hnd.getElem_inj_iff).mp hgen
    omega

/-- C1 witness: at the 503-then-success scenario of the spec, candidate
2 is recorded as the Resolved Model, candidates after it are never
attempted, and the follow-up text is returned. -/
theorem first_success_resolution_witness :
    (callGemini none (initNet scenarioOracle) "Hello world").1 =
      .ok (.str "Hi there") ∧
    (callGemini none (initNet scenarioOracle) "Hello world").2.1 =
      some "gemini-2.5-flash" ∧
    Request.gen "gemini-1.5-pro" "Hello world" ∉
      (callGemini none (initNet scenarioOracle) "Hello world").2.2.trace := by
  have h := first_success_resolution scenarioOracle "Hello world" 1 (by decide)
    (by intro j hj
        interval_cases j
        rfl)
    rfl rfl
  refine ⟨h.1, h.2.1, ?_⟩
  have h4 := h.2.2.2 2 (by decide) (by decide)
  exact h4

/-- C8: with no cached model, `callGemini` resolves using the caller's
actual prompt (the resolution requests carry that prompt) and then
issues one further generation request with the resolved model and the
same prompt; the returned value is the follow-up request's text, and if
the follow-up fails `callGemini` throws even though a candidate
succeeded during resolution of the same call. -/
theorem resolution_then_followup_request (oracle : Nat → FetchOutcome)
    (p : String) (k : Nat) (hk : k < CANDIDATE_MODELS.length)
    (hfail : ∀ j, j < k → (parseAttempt (oracle j)).ok = false)
    (hsucc : (parseAttempt (oracle k)).ok = true) :
    (callGemini none (initNet oracle) p).2.2.trace =
      (CANDIDATE_MODELS.take (k + 1)).map (fun m => Request.gen m p)
        ++ [Request.gen (CANDIDATE_MODELS.get ⟨k, hk⟩) p] ∧
    ((parseAttempt (oracle (k + 1))).ok = true →
      (callGemini none (initNet oracle) p).1 =
        .ok ((parseAttempt (oracle (k + 1))).text.getD .null)) ∧
    ((parseAttempt (oracle (k + 1))).ok = false →
      (callGemini none (initNet oracle) p).1 =
        .error (callFailMsg (parseAttempt (oracle (k + 1))).error)) := by
  have hcg := callGemini_resolution oracle p k hk hfail hsucc
  rw [hcg]
  exact ⟨rfl, fun h => by simp [h], fun h => by simp [h]⟩

/-- C8 witness: candidate 1 succeeds during resolution, the follow-up
request throws, and `callGemini` fails with the follow-up's transport
message after issuing exactly the two requests with the caller's
prompt. -/
theorem resolution_then_followup_request_witness :
    (callGemini none (initNet flakyOracle) "q").2.2.trace =
      [Request.gen "gemini-2.5-pro" "q", Request.gen "gemini-2.5-pro" "q"] ∧
    (callGemini none (initNet flakyOracle) "q").1 = .error "flaky" := by
  have h := resolution_then_followup_request flakyOracle "q" 0 (by decide)
    (fun j hj => absurd hj (Nat.not_lt_zero j)) rfl
  constructor
  · rw [h.1]
    rfl
  · have h2 := h.2.2 rfl
    rw [h2]
    rfl

/-- C6: when all five candidates fail, the resolver queries the model
listing (v1beta first), selects the first gemini-like entry (else the
first entry) of the returned array, and issues exactly one additional
generation attempt with its identifier — six generation requests in
total — before failing with the no-usable-model error. -/
theorem listing_fallback_single_attempt (oracle : Nat → FetchOutcome)
    (p : String) (xs : List JVal) (gm : JVal)
    (hfail : ∀ j, j < CANDIDATE_MODELS.length → (parseAttempt (oracle j)).ok = false)
    (hlist : listUsable (oracle 5) = true)
    (hval : listValue (oracle 5) = some (.arr xs))
    (hxs : 0 < xs.length)
    (hsel : selectListed xs = some gm)
    (hgm : truthy gm = true)
    (hfail2 : (parseAttempt (oracle 6)).ok = false) :
    ensureWorkingModel none (initNet oracle) p =
      (.error noModelMsg, none,
       { oracle := oracle, calls := 7,
         trace := CANDIDATE_MODELS.map (fun m => Request.gen m p)
           ++ [Request.listModels
                "https://generativelanguage.googleapis.com/v1beta/models"]
           ++ [Request.gen (listedId gm) p] }) ∧
    (genTrace (ensureWorkingModel none (initNet oracle) p).2.2.trace).length =
      CANDIDATE_MODELS.length + 1 := by
  have hres := resolveLoop_all_fail CANDIDATE_MODELS (initNet oracle) p
    (by intro j hj
        simpa [initNet] using hfail j hj)
  simp only [initNet, Nat.zero_add, List.nil_append,
    show CANDIDATE_MODELS.length = 5 from rfl] at hres
  have hLL := listLoop_first_usable
    "https://generativelanguage.googleapis.com/v1beta/models"
    ["https://generativelanguage.googleapis.com/v1/models"]
    { oracle := oracle, calls := 5,
      trace := CANDIDATE_MODELS.map (fun m => Request.gen m p) }
    (by simpa using hlist)
  simp only [] at hLL
  have hlast : lastResort
      { oracle := oracle, calls := 5,
        trace := CANDIDATE_MODELS.map (fun m => Request.gen m p) } p =
      (.error noModelMsg, none,
       { oracle := oracle, calls := 7,
         trace := CANDIDATE_MODELS.map (fun m => Request.gen m p)
           ++ [Request.listModels
                "https://generativelanguage.googleapis.com/v1beta/models"]
           ++ [Request.gen (listedId gm) p] }) := by
    simp only [lastResort, listAvailableModels, listEndpoints, hLL, hval,
      hsel, hgm, tryModelGenerate, doFetch, hxs, if_true]
    simp [hfail2, hxs]
  have hmain : ensureWorkingModel none (initNet oracle) p =
      (.error noModelMsg, none,
       { oracle := oracle, calls := 7,
         trace := CANDIDATE_MODELS.map (fun m => Request.gen m p)
           ++ [Request.listModels
                "https://generativelanguage.googleapis.com/v1beta/models"]
           ++ [Request.gen (listedId gm) p] }) := by
    simp only [ensureWorkingModel, initNet, hres, hlast]
  refine ⟨hmain, ?_⟩
  rw [hmain]
  simp [genTrace, CANDIDATE_MODELS, List.filterMap]

/-- C6 witness: with every candidate throwing, a listing answer naming
"models/gemini-9", and the extra attempt failing, the resolver issues
six generation requests and fails. -/
theorem listing_fallback_single_attempt_witness :
    ensureWorkingModel none (initNet listFallbackOracle) "p" =
      (.error noModelMsg, none,
       { oracle := listFallbackOracle, calls := 7,
         trace := CANDIDATE_MODELS.map (fun m => Request.gen m "p")
           ++ [Request.listModels
                "https://generativelanguage.googleapis.com/v1beta/models"]
           ++ [Request.gen "models/gemini-9" "p"] }) := by
  have h := listing_fallback_single_attempt listFallbackOracle "p"
    [.obj [("name", .str "models/gemini-9")]]
    (.obj [("name", .str "models/gemini-9")])
    (fun j hj => by
      have hj5 : j < 5 := hj
      interval_cases j <;> rfl)
    rfl rfl (by decide) rfl rfl rfl
  rw [h.1]
  rfl

theorem ensureWorkingModel_all_fail (oracle : Nat → FetchOutcome) (net : Net)
    (p : String) (hfail : ∀ j, (parseAttempt (oracle j)).ok = false)
    (hlist : ∀ j, listUsable (oracle j) = false) (hnet : net.oracle = oracle) :
    ∃ net2, ensureWorkingModel none net p = (.error noModelMsg, none, net2) := by
  have hres := resolveLoop_all_fail CANDIDATE_MODELS net p
    (fun j hj => by rw [hnet]; exact hfail _)
  have hll := listLoop_all_unusable listEndpoints
    { oracle := net.oracle, calls := net.calls + CANDIDATE_MODELS.length,
      trace := net.trace ++ CANDIDATE_MODELS.map (fun m => Request.gen m p) }
    (fun j hj => by simpa [hnet] using hlist _)
  simp only [ensureWorkingModel, hres, lastResort, listAvailableModels, hll]
  exact ⟨_, rfl⟩

theorem callGemini_all_fail (oracle : Nat → FetchOutcome) (net : Net)
    (p : String) (hfail : ∀ j, (parseAttempt (oracle j)).ok = false)
    (hlist : ∀ j, listUsable (oracle j) = false) (hnet : net.oracle = oracle) :
    ∃ net2, callGemini none net p = (.error noModelMsg, none, net2) := by
  obtain ⟨net2, h⟩ := ensureWorkingModel_all_fail oracle net p hfail hlist hnet
  exact ⟨net2, by simp [callGemini, h]⟩

theorem v2Loop_none (ms : List String) (net : Net) (p : String)
    (h : ∀ j, v2Attempt (net.oracle j) = none) :
    (v2Loop ms net p).1 = none := by
  induction ms generalizing net with
  | nil => rfl
  | cons m rest ih =>
    simp only [v2Loop, doFetch, h]
    exact ih _ (fun j => h j)

theorem callGeminiAPI_all_fail (oracle : Nat → FetchOutcome) (net : Net)
    (p : String) (h : ∀ j, v2Attempt (oracle j) = none)
    (hnet : net.oracle = oracle) :
    ∃ net1, callGeminiAPI net p = (.error v2FailMsg, net1) := by
  rcases hv : v2Loop GEMINI_MODELS net p with ⟨r, net1⟩
  have hr : r = none := by
    have := v2Loop_none GEMINI_MODELS net p (fun j => by rw [hnet]; exact h j)
    rw [hv] at this
    exact this
  subst hr
  exact ⟨net1, by simp [callGeminiAPI, hv]⟩

/-- C3 counterexample: in the secondary variant (server.js), a total
generation failure is surfaced as HTTP 500 whose JSON body has an error
message but no `details` field, so "each API route ... contains both an
error message and a details field" is false at this input. -/
theorem secondary_500_lacks_details_cex :
    (handleHumanizeV2 (initNet downOracle) (.obj [("text", .str "hi")])).1.status
      = 500 ∧
    List.lookup "error"
      (handleHumanizeV2 (initNet downOracle) (.obj [("text", .str "hi")])).1.body
      = some (.str "Error contacting Gemini API") ∧
    List.lookup "details"
      (handleHumanizeV2 (initNet downOracle) (.obj [("text", .str "hi")])).1.body
      = none :=
  ⟨rfl, rfl, rfl⟩

/-- C3 (amended): when every candidate fails and the listing fallback is
exhausted or absent, `callGemini` fails with the thrown no-usable-model
error rather than returning a value; the primary variant's routes
surface this as HTTP 500 with both an error message and a `details`
field carrying the diagnostic, while the secondary variant's routes
surface HTTP 500 with an error message only. -/
theorem generation_failure_http500 (oracle : Nat → FetchOutcome) (p : String)
    (t : JVal) (hfail : ∀ j, (parseAttempt (oracle j)).ok = false)
    (hlist : ∀ j, listUsable (oracle j) = false)
    (hv2 : ∀ j, v2Attempt (oracle j) = none)
    (htext : truthy t = true) :
    (callGemini none (initNet oracle) p).1 = .error noModelMsg ∧
    ((handleHumanize none (initNet oracle) (.obj [("text", t)])).1.status = 500 ∧
      List.lookup "error"
        (handleHumanize none (initNet oracle) (.obj [("text", t)])).1.body
        = some (.str "Gemini request failed") ∧
      List.lookup "details"
        (handleHumanize none (initNet oracle) (.obj [("text", t)])).1.body
        = some (.str noModelMsg)) ∧
    ((handleSummarize none (initNet oracle) (.obj [("text", t)])).1.status = 500 ∧
      List.lookup "details"
        (handleSummarize none (initNet oracle) (.obj [("text", t)])).1.body
        = some (.str noModelMsg)) ∧
    ((handleTone none (initNet oracle)
        (.obj [("text", t), ("mode", .str "casual")])).1.status = 500 ∧
      List.lookup "details"
        (handleTone none (initNet oracle)
          (.obj [("text", t), ("mode", .str "casual")])).1.body
        = some (.str noModelMsg)) ∧
    ((handleHumanizeV2 (initNet oracle) (.obj [("text", t)])).1.status = 500 ∧
      List.lookup "details"
        (handleHumanizeV2 (initNet oracle) (.obj [("text", t)])).1.body
        = none) := by
  have hcg : ∀ q, ∃ net2,
      callGemini none (initNet oracle) q = (.error noModelMsg, none, net2) :=
    fun q => callGemini_all_fail oracle (initNet oracle) q hfail hlist rfl
  have hdet : detailsVal noModelMsg = .str noModelMsg := rfl
  obtain ⟨n1, h1⟩ := hcg p
  obtain ⟨n2, h2⟩ := hcg (humanizePrompt t)
  obtain ⟨n3, h3⟩ := hcg (summarizePrompt t)
  obtain ⟨n4, h4⟩ := hcg
    ("Rewrite the following text in a Casual tone:\n\n" ++ jsToString t)
  obtain ⟨n5, h5⟩ := callGeminiAPI_all_fail oracle (initNet oracle)
    ("Paraphrase this text to sound natural:\n" ++ jsToString t) hv2 rfl
  refine ⟨by rw [h1], ?_, ?_, ?_, ?_⟩
  · simp [handleHumanize, jget, truthyO, htext, h2, hdet, List.lookup]
  · simp [handleSummarize, jget, truthyO, htext, h3, hdet, List.lookup]
  · have hcas : truthy (JVal.str "casual") = true := rfl
    simp [handleTone, jget, List.lookup, truthyO, htext, hcas, h4, hdet,
      tonePrompt, toneWord, strictEqStr]
  · simp [handleHumanizeV2, jget, truthyO, htext, h5, List.lookup]

/-- C3 witness: with the network down entirely, `callGemini` fails with
the thrown error and the primary humanize route answers 500 with both
fields. -/
theorem generation_failure_http500_witness :
    (callGemini none (initNet downOracle) "q").1 = .error noModelMsg ∧
    (handleHumanize none (initNet downOracle)
      (.obj [("text", .str "hi")])).1.status = 500 ∧
    List.lookup "details"
      (handleHumanize none (initNet downOracle)
        (.obj [("text", .str "hi")])).1.body = some (.str noModelMsg) := by
  have h := generation_failure_http500 downOracle "q" (.str "hi")
    (fun j => rfl) (fun j => rfl) (fun j => rfl) rfl
  exact ⟨h.1, h.2.1.1, h.2.1.2.2⟩
